import Mathlib

/-!
A shallow embedding of the `serversentevent` package: the server-side
Server-Sent-Events stream encoder (`src/index.js`, which holds two
concatenated copies of the encoder) and the client-side transport
(`ServerSentEvents`).  External collaborators — the HTTP request and
response objects, the header map, the native EventSource primitive and the
legacy event-source element — are modelled at the interface boundary the
specification documents for them (§6).
-/

namespace SSEVerify

/-- A JavaScript number as this library meets it: either NaN (the result of
coercing a non-numeric string) or an integer value. -/
inductive JsNum where
  | nan : JsNum
  | int (n : Int) : JsNum
deriving DecidableEq, Repr

/-- Value of a run of decimal digits. -/
def decDigits (l : List Char) : Nat :=
  l.foldl (fun a c => a * 10 + (c.toNat - 48)) 0

/-- Modelled from the spec: JavaScript unary `+` (ToNumber) on the header
strings this program encounters — the empty string is 0, an optionally
signed run of decimal digits is that integer, and any other string is NaN.
Fractional, hexadecimal and infinite numeric forms do not occur in the
specification or the claims and are outside the model. -/
def jsToNumber (s : String) : JsNum :=
  match s.data with
  | [] => .int 0
  | '-' :: rest =>
      if rest ≠ [] ∧ rest.all Char.isDigit then .int (-(decDigits rest : Int)) else .nan
  | '+' :: rest =>
      if rest ≠ [] ∧ rest.all Char.isDigit then .int (decDigits rest) else .nan
  | l => if l.all Char.isDigit then .int (decDigits l) else .nan

/-- A header map, as a list of (name, value) pairs. -/
abbrev Headers := List (String × String)

/-- ASCII lower-casing of one character (HTTP header names are ASCII). -/
def lowerChar (c : Char) : Char :=
  if 65 ≤ c.toNat ∧ c.toNat ≤ 90 then Char.ofNat (c.toNat + 32) else c

/-- ASCII lower-casing of a header name. -/
def lowerName (s : String) : String :=
  ⟨s.data.map lowerChar⟩

/-- Modelled from the spec: case-insensitive header lookup on a request or
response header map (the host normalises header names to lower case). -/
def getHeader (h : Headers) (k : String) : Option String :=
  (h.find? (fun p => p.fst == lowerName k)).map Prod.snd

/-- Modelled from the spec: the response sink's `setHeader(name, value)`
(§6) — stores the header under its lower-cased name, replacing any previous
value for that name. -/
def setHeader (h : Headers) (k v : String) : Headers :=
  (lowerName k, v) :: h.filter (fun p => p.fst != lowerName k)

/-- Modelled from the spec: the `vary` collaborator — appends a field to the
response's Vary header, creating the header when absent. -/
def varyAdd (h : Headers) (field : String) : Headers :=
  match getHeader h "vary" with
  | none => setHeader h "Vary" field
  | some old =>
      if (old.splitOn ", ").contains field then h
      else setHeader h "Vary" (old ++ ", " ++ field)

/-- Modelled from the spec: the underlying HTTP response sink (§6) — a
status code, a header map, the chunks handed to `write` in order, and the
boolean each `write` call returns (the sink's own accept/reject behaviour,
abstract to this library). -/
structure Response where
  statusCode : Nat
  headers : Headers
  writes : List String
  writeResult : String → Bool

/-- One `write(chunk)` call on the sink: records the chunk and returns the
sink's boolean. -/
def Response.write (r : Response) (chunk : String) : Response × Bool :=
  ({ r with writes := r.writes ++ [chunk] }, r.writeResult chunk)

/-- A concrete sink that accepts every chunk; used to instantiate scenarios. -/
def emptyRes : Response :=
  { statusCode := 0, headers := [], writes := [], writeResult := fun _ => true }

/-- Modelled from the spec: the incoming HTTP request at the surface this
library reads (§6) — its (lower-cased) header map and the set of
query-parameter names of its URL (`url-parse(req.url, true)` yields a query
object; the code only tests key membership with `in`). -/
structure Request where
  headers : Headers
  queryKeys : List String

/-- Does the regular expression `/^Opera[^\/]*\/9/` accept the remainder of
the string after `Opera`?  It does iff the first `/` is immediately followed
by `9` (the `[^\/]*` part can never cross a slash, so the only viable match
uses the first slash). -/
def afterFirstSlash9 : List Char → Bool
  | [] => false
  | '/' :: rest => rest.head? == some '9'
  | _ :: rest => afterFirstSlash9 rest

/-- The early-Opera-9 user-agent signature test `/^Opera[^\/]*\/9/.test(ua)`:
the anchored literal `Opera`, then `afterFirstSlash9` on the remainder. -/
def operaLegacyUA (ua : String) : Bool :=
  match ua.data with
  | 'O' :: 'p' :: 'e' :: 'r' :: 'a' :: rest => afterFirstSlash9 rest
  | _ => false

/-- The `legacy(query, headers)` helper from `index.js` (identical in both
copies), applied to an actual headers object: legacy iff the query contains
the `_SSE_LEGACY` key, or the headers carry a user-agent matching the
early-Opera-9 signature (an absent user-agent short-circuits to falsy). -/
def legacyFn (queryKeys : List String) (headers : Headers) : Bool :=
  queryKeys.contains "_SSE_LEGACY"
    || (match getHeader headers "user-agent" with
        | some ua => operaLegacyUA ua
        | none => false)

/-- `legacy` as the constructors actually call it, with `res.headers` as the
`headers` argument.  When that field is `undefined` (`none`, as on a plain
Node response object) and the query lacks the marker, the expression
`headers['user-agent']` raises a TypeError; the thrown construction is
modelled as `none`. -/
def legacyCalled (queryKeys : List String) (resHeaders : Option Headers) : Option Bool :=
  if queryKeys.contains "_SSE_LEGACY" then some true
  else
    match resHeaders with
    | none => none
    | some h => some (legacyFn queryKeys h)

/-- The state of the first `SSE` encoder copy in `index.js`: message
counter, resume id (`null` initially), negotiated encoding, response sink,
numbering flag, dialect flag, and the optional sequence-store collaborator.
The store's `set(id, payload)` calls are modelled as the list of pairs
passed to it, in order. -/
structure SSE where
  id : Nat
  lastEventId : Option JsNum
  encoding : Option String
  res : Option Response
  numbering : Bool
  legacy : Bool
  storage : Option (List (Nat × String))

/-- `SSE.prototype.format` (identical in both copies), abstracted over the
instance's `legacy` flag: `key + ':' + (legacy ? ' ' : '') + value + '\n'`. -/
def formatKV (legacyDialect : Bool) (key value : String) : String :=
  key ++ ":" ++ (if legacyDialect then " " else "") ++ value ++ "\n"

/-- `this.format(key, value)` on an encoder instance. -/
def SSE.format (s : SSE) (key value : String) : String :=
  formatKV s.legacy key value

/-- The `msg` argument of `write`: a single string or an array of strings.
`write` first wraps a single string into a one-element array. -/
inductive Msg where
  | str (s : String) : Msg
  | arr (l : List String) : Msg
deriving DecidableEq, Repr

/-- The `if (!Array.isArray(msg)) msg = [msg]` normalisation. -/
def Msg.toArray : Msg → List String
  | .str s => [s]
  | .arr l => l

/-- The data-frame accumulation loop of `write`:
`payload += this.format('data', msg[i])` over the array in order. -/
def SSE.dataPayload (s : SSE) (m : Msg) : String :=
  m.toArray.foldl (fun acc x => acc ++ s.format "data" x) ""

/-- The body of `SSE.prototype.write` before the final flush: computes the
packet and performs the state mutations — on the numbered standard path the
payload is recorded in the attached store under the current id, an id frame
is prepended and `this.id++` runs; the legacy path replaces the payload with
the fixed `Event: sse` frame and mutates nothing. -/
def SSE.writeStep (s : SSE) (m : Msg) : SSE × String :=
  let payload := s.dataPayload m
  if s.legacy then
    (s, s.format "Event" "sse")
  else if s.numbering then
    let s1 := { s with storage := s.storage.map (fun st => st ++ [(s.id, payload)]) }
    let packet := s1.format "id" (toString s1.id) ++ payload
    ({ s1 with id := s1.id + 1 }, packet)
  else
    (s, payload)

/-- `SSE.prototype._write`: returns `false` when no sink is attached,
otherwise appends the blank-line frame terminator and hands exactly one
chunk to the sink's `write`, returning the sink's boolean. -/
def SSE.flush (s : SSE) (packet : String) : SSE × Bool :=
  match s.res with
  | none => (s, false)
  | some r =>
      let wr := r.write (packet ++ "\n")
      ({ s with res := some wr.fst }, wr.snd)

/-- `SSE.prototype.write`: the packet computation followed by the flush. -/
def SSE.write (s : SSE) (m : Msg) : SSE × Bool :=
  let st := s.writeStep m
  st.fst.flush st.snd

/-- `SSE.prototype.retry`: flushes a single `retry` frame. -/
def SSE.retry (s : SSE) (interval : String) : SSE × Bool :=
  s.flush (s.format "retry" interval)

/-- The header updates `accept` performs on the response, in source order:
the four framing headers, then — first copy only, when an encoding was
negotiated — the `Content-Encoding` header plus the Vary marking. -/
def acceptHeaders (legacyDialect : Bool) (encoding : Option String) (h0 : Headers) : Headers :=
  let h := setHeader h0 "Transfer-Encoding" "chunked"
  let h := setHeader h "Cache-Control" "no-cache"
  let h := setHeader h "Connection" "keep-alive"
  let h := setHeader h "Content-Type"
    (if legacyDialect then "text/x-dom-event-stream" else "text/event-stream")
  match encoding with
  | some e => varyAdd (setHeader h "Content-Encoding" e) "Content-Encoding"
  | none => h

/-- The effect of `accept` on the response object: success status plus the
header updates. -/
def acceptUpd (legacyDialect : Bool) (encoding : Option String) (r : Response) : Response :=
  { r with statusCode := 200, headers := acceptHeaders legacyDialect encoding r.headers }

/-- `SSE.prototype.accept` (first copy): sets the success status and the
framing headers on the response, adds the compression headers when an
encoding was negotiated, and records the peer's `Last-Event-ID` header —
an absent or empty header leaves the resume state untouched, any other
value goes through JavaScript unary `+`. -/
def SSE.accept (s : SSE) (req : Request) : SSE :=
  let s := { s with res := s.res.map (acceptUpd s.legacy s.encoding) }
  match getHeader req.headers "last-event-id" with
  | none => s
  | some v => if v = "" then s else { s with lastEventId := some (jsToNumber v) }

/-- The `compress` helper collapsed to its effect on the encoder: only
`deflate`, `raw` and `gzip` wrap the response in a compressing stream; any
other negotiated value leaves `this.res === res`, after which the
constructor nukes the encoding to `null`. -/
def keptEncoding (zipable : Option String) : Option String :=
  match zipable with
  | some e => if e = "deflate" ∨ e = "raw" ∨ e = "gzip" then some e else none
  | none => none

/-- The first-copy `SSE` constructor.  `zipable` is the encoding the
external `zipline` collaborator negotiates from the request.  Note that the
dialect detection is fed `res.headers` — the RESPONSE's header field, which
is `none` on a plain Node response, making the user-agent arm raise a
TypeError (modelled as `none` overall). -/
def SSE.construct (req : Request) (res : Response) (resHeaders : Option Headers)
    (numbering manual : Bool) (zipable : Option String) : Option SSE :=
  match legacyCalled req.queryKeys resHeaders with
  | none => none
  | some lg =>
      let s : SSE :=
        { id := 0, lastEventId := none, encoding := keptEncoding zipable,
          res := some res, numbering := numbering, legacy := lg, storage := none }
      some (if manual then s else s.accept req)

/-- The encoder state right after construction with the given flags, no
negotiated compression and no sequence store attached: the counter starts
at 0 and the resume state is `null`. -/
def SSE.fresh (numbering legacyDialect : Bool) (r : Response) : SSE :=
  { id := 0, lastEventId := none, encoding := none, res := some r,
    numbering := numbering, legacy := legacyDialect, storage := none }

/-- The chunks the response sink has received so far. -/
def SSE.sinkWrites (s : SSE) : List String :=
  match s.res with
  | some r => r.writes
  | none => []

/-- The response's status code, through the encoder. -/
def SSE.respStatus (s : SSE) : Option Nat :=
  s.res.map Response.statusCode

/-- A response header, through the encoder. -/
def SSE.respHeader (s : SSE) (k : String) : Option String :=
  s.res.bind fun r => getHeader r.headers k

/-- Iterated `write` calls. -/
def runWrites (s : SSE) : List Msg → SSE
  | [] => s
  | m :: ms => runWrites (s.write m).fst ms

/-- The wire bytes of the standard-dialect numbered frame group for message
`m` with sequence number `k`: an id frame, the data frames in order, and
the blank-line terminator. -/
def numberedGroup (k : Nat) (m : Msg) : String :=
  (formatKV false "id" (toString k)
      ++ m.toArray.foldl (fun acc x => acc ++ formatKV false "data" x) "")
    ++ "\n"

/-- The frame groups of consecutive numbered writes starting at sequence
number `k`: one group per call, ids gapless and increasing. -/
def numberedGroupsFrom (k : Nat) : List Msg → List String
  | [] => []
  | m :: ms => numberedGroup k m :: numberedGroupsFrom (k + 1) ms

/-- The second `SSE` encoder copy (after the separator in `index.js`): no
compression support, and `lastEventId` initialised to `0` rather than
`null`. -/
structure SSE2 where
  id : Nat
  lastEventId : JsNum
  res : Option Response
  numbering : Bool
  legacy : Bool
  storage : Option (List (Nat × String))

/-- `SSE.prototype.accept` of the second copy: identical to the first
except that there is no compression block (no encoding ever negotiated). -/
def SSE2.accept (s : SSE2) (req : Request) : SSE2 :=
  let s := { s with res := s.res.map (acceptUpd s.legacy none) }
  match getHeader req.headers "last-event-id" with
  | none => s
  | some v => if v = "" then s else { s with lastEventId := jsToNumber v }

/-- The second-copy `SSE` constructor: `this.lastEventId = 0`, and the same
`legacy(this.url.query, res.headers)` call as the first copy. -/
def SSE2.construct (req : Request) (res : Response) (resHeaders : Option Headers)
    (numbering manual : Bool) : Option SSE2 :=
  match legacyCalled req.queryKeys resHeaders with
  | none => none
  | some lg =>
      let s : SSE2 :=
        { id := 0, lastEventId := .int 0, res := some res,
          numbering := numbering, legacy := lg, storage := none }
      some (if manual then s else s.accept req)

/-- The two kinds of connection handle the transport can hold. -/
inductive HandleKind where
  | eventSource : HandleKind
  | element : HandleKind
deriving DecidableEq, Repr

/-- Modelled from the spec: a connection handle (§6) — either the native
EventSource primitive (constructed from a URL and a credentials flag,
exposing `addEventListener`/`removeEventListener` and `close`) or the
legacy event-source element (mounted markup carrying `src` and `id`
attributes, exposing `addEventListener`, `removeEventSource` and attribute
removal).  Neither primitive exposes a `removeListener` method.
`listeners` records the attached (event name, shared listener) bindings in
order; the shared listeners are identified by their names `data`, `error`,
`close`, `open`. -/
structure Handle where
  kind : HandleKind
  src : Option String
  elemId : Option String
  withCredentials : Bool
  listeners : List (String × String)
  closed : Bool
  srcAttributeRemoved : Bool
  removedEventSource : Option (Option String)
deriving DecidableEq, Repr

/-- `element.addEventListener(evt, listener)` on a handle. -/
def Handle.addListener (h : Handle) (evt name : String) : Handle :=
  { h with listeners := h.listeners ++ [(evt, name)] }

/-- The client transport's state: the `ServerSentEvents` instance fields
(`url`, `api`, `div`), the process-wide `ServerSentEvents.legacy`
capability flag, and the module-level `unique` counter threaded
explicitly. -/
structure TransportState where
  noreconnect : Bool
  url : Option String
  api : Option Handle
  divMounted : Bool
  uniqueCounter : Nat
  legacyMode : Bool
deriving DecidableEq, Repr

/-- Outcome of a transport operation: a normal return, or a thrown
exception (`err`) carrying the state at the moment of the throw. -/
inductive JsOutcome (α : Type) where
  | ok (val : α) : JsOutcome α
  | err (val : α) (msg : String) : JsOutcome α
deriving DecidableEq, Repr

/-- The state inside an outcome, thrown or not. -/
def JsOutcome.state {α : Type} : JsOutcome α → α
  | .ok v => v
  | .err v _ => v

/-- Did the operation return normally? -/
def JsOutcome.isOk {α : Type} : JsOutcome α → Bool
  | .ok _ => true
  | .err _ _ => false

/-- `ServerSentEvents.prototype.end`: tears down the active handle — a
`close()` call when the handle has one (the EventSource), otherwise
`removeEventSource(this.url)` plus removal of the `src` attribute (the
legacy element) — and then calls `this.api.removeListener(...)` for the
`message`, `error`, `open` and `sse` events.  Neither §6 connection
primitive has a `removeListener` method, so the first of those calls throws
a TypeError before any binding is detached; the state at the throw is
carried in the error. -/
def TransportState.endFn (t : TransportState) : JsOutcome TransportState :=
  match t.api with
  | none => .ok t
  | some h =>
      let h1 :=
        if h.kind = HandleKind.eventSource then { h with closed := true }
        else { h with removedEventSource := some t.url, srcAttributeRemoved := true }
      .err { t with api := some h1 } "TypeError: this.api.removeListener is not a function"

/-- `ServerSentEvents.prototype.initialize` (the standard strategy).  Note
that the EventSource is constructed from `this.url` — the field as it stood
BEFORE this call (still `null` on the first open of a non-manual instance)
— and only afterwards is `this.url` assigned the argument. -/
def TransportState.standardInit (t : TransportState) (url : Option String) : TransportState :=
  let h : Handle :=
    { kind := .eventSource, src := t.url, elemId := none, withCredentials := true,
      listeners := [("message", "data")], closed := false,
      srcAttributeRemoved := false, removedEventSource := none }
  { t with api := some h, url := url }

/-- `ServerSentEvents.prototype.legacy` (the legacy strategy): mints
`_SSE_LEGACY=<unique++>` and then REPLACES the url with just `'&'`-or-`'?'`
plus that marker (the original url survives only in the `indexOf('?')`
test), mounts a div whose markup declares an event-source element with that
string as `src` and the marker as its element id, looks the element back up
and binds the shared data listener to its `sse` event.  A `null` url would
make `url.indexOf` throw. -/
def TransportState.legacyOpen (t : TransportState) (url : Option String) :
    JsOutcome TransportState :=
  match url with
  | none => .err t "TypeError: url is null"
  | some u =>
      let marker := "_SSE_LEGACY=" ++ toString t.uniqueCounter
      let u2 := (if u.data.contains '?' then "&" else "?") ++ marker
      let h : Handle :=
        { kind := .element, src := some u2, elemId := some marker,
          withCredentials := false, listeners := [("sse", "data")], closed := false,
          srcAttributeRemoved := false, removedEventSource := none }
      .ok { t with uniqueCounter := t.uniqueCounter + 1, divMounted := true,
                   url := some u2, api := some h }

/-- `ServerSentEvents.prototype.open`: an implicit `end` when a handle
exists (whose TypeError propagates), `url = url || this.url`, dispatch on
the process-wide legacy capability flag, then the shared `error`, `close`
and `open` listeners are attached to the new handle. -/
def TransportState.openFn (t : TransportState) (urlArg : Option String) :
    JsOutcome TransportState :=
  match (if t.api.isSome then t.endFn else .ok t) with
  | .err t1 m => .err t1 m
  | .ok t1 =>
      let url : Option String :=
        match urlArg with
        | some u => if u = "" then t1.url else some u
        | none => t1.url
      match (if t1.legacyMode then t1.legacyOpen url else .ok (t1.standardInit url)) with
      | .err t2 m => .err t2 m
      | .ok t2 =>
          .ok { t2 with api := t2.api.map (fun h =>
                  ((h.addListener "error" "error").addListener "close" "close").addListener
                    "open" "open") }

/-- The `ServerSentEvents` constructor, for a given process-wide state of
the `ServerSentEvents.legacy` capability flag and of the module-level
`unique` counter: creates the four shared listener closures, then opens the
url unless `manual` is set (in which case the url is only stored). -/
def TransportState.construct (legacyMode : Bool) (uniq : Nat) (url : String)
    (reconnect : Option Bool) (manual : Bool) : JsOutcome TransportState :=
  let t : TransportState :=
    { noreconnect := reconnect == some false, url := none, api := none,
      divMounted := false, uniqueCounter := uniq, legacyMode := legacyMode }
  if manual then .ok { t with url := some url } else t.openFn (some url)

/-! ## Helper lemmas -/

theorem find?_filter_sub {α : Type} (p q : α → Bool) (l : List α)
    (hpq : ∀ x, p x = true → q x = true) :
    (l.filter q).find? p = l.find? p := by
  induction l with
  | nil => rfl
  | cons a t ih =>
      cases hq : q a with
      | true =>
          rw [List.filter_cons_of_pos hq]
          cases hp : p a with
          | true => rw [List.find?_cons_of_pos _ hp, List.find?_cons_of_pos _ hp]
          | false =>
              rw [List.find?_cons_of_neg _ (by simp [hp]),
                List.find?_cons_of_neg _ (by simp [hp]), ih]
      | false =>
          rw [List.filter_cons_of_neg (by simp [hq])]
          have hp : p a = false := by
            cases hpa : p a
            · rfl
            · exact absurd (hpq a hpa) (by simp [hq])
          rw [List.find?_cons_of_neg _ (by simp [hp]), ih]

theorem getHeader_setHeader_eq (h : Headers) (k k' v : String)
    (hk : lowerName k' = lowerName k) :
    getHeader (setHeader h k v) k' = some v := by
  unfold getHeader setHeader
  rw [hk, List.find?_cons_of_pos _ (by simp)]
  rfl

theorem getHeader_setHeader_ne (h : Headers) (k k' v : String)
    (hk : lowerName k' ≠ lowerName k) :
    getHeader (setHeader h k v) k' = getHeader h k' := by
  unfold getHeader setHeader
  rw [List.find?_cons_of_neg _ (by simp; exact fun e => hk (by rw [e])),
    find?_filter_sub]
  intro x hx
  simp only [beq_iff_eq] at hx
  simp [bne_iff_ne, hx]
  exact fun e => hk (by rw [e])

theorem getHeader_varyAdd_ne (h : Headers) (field k' : String)
    (hk : lowerName k' ≠ "vary") :
    getHeader (varyAdd h field) k' = getHeader h k' := by
  have hv : lowerName k' ≠ lowerName "Vary" := by
    intro e
    exact hk (by rw [e]; rfl)
  unfold varyAdd
  split
  · rw [getHeader_setHeader_ne _ _ _ _ hv]
  · split
    · rfl
    · rw [getHeader_setHeader_ne _ _ _ _ hv]

/-! ## C3: shape of a formatted frame line -/

/-- C3: for every dialect and every key and value containing no embedded
newline, `format(key, value)` returns `key + ':' + value + '\n'` with a
single space inserted after the colon exactly when the dialect is legacy,
and the result contains exactly one newline, which is its final
character. -/
theorem format_frame_line (lg : Bool) (key value : String)
    (hk : key.data.count '\n' = 0) (hv : value.data.count '\n' = 0) :
    formatKV lg key value
      = key ++ ":" ++ (if lg then " " else "") ++ value ++ "\n"
    ∧ (formatKV lg key value).data.count '\n' = 1
    ∧ (formatKV lg key value).data.getLast? = some '\n' := by
  refine ⟨rfl, ?_, ?_⟩
  · cases lg <;>
      simp [formatKV, String.data_append, List.count_append, hk, hv]
  · cases lg <;>
      simp [formatKV, String.data_append] <;>
      rw [← List.cons_append, List.getLast?_concat]

/-- Witness for C3 at a concrete legacy-dialect input. -/
theorem format_frame_line_witness :
    formatKV true "data" "hello"
      = "data" ++ ":" ++ (if true then " " else "") ++ "hello" ++ "\n"
    ∧ (formatKV true "data" "hello").data.count '\n' = 1
    ∧ (formatKV true "data" "hello").data.getLast? = some '\n' :=
  format_frame_line true "data" "hello" (by decide) (by decide)

/-! ## C2: legacy writes carry the fixed frame only -/

/-- C2: in legacy dialect, `write` with any payload (single value or
sequence) hands the sink exactly the fixed bytes `"Event: sse\n\n"` — the
payload never appears on the wire and the sequence counter is untouched. -/
theorem legacy_write_fixed_frame (s : SSE) (r : Response) (m : Msg)
    (hl : s.legacy = true) (hr : s.res = some r) :
    (s.write m).fst
      = { s with res := some { r with writes := r.writes ++ ["Event: sse\n\n"] } }
    ∧ (s.write m).snd = r.writeResult "Event: sse\n\n" := by
  have hfmt : s.format "Event" "sse" ++ "\n" = "Event: sse\n\n" := by
    unfold SSE.format formatKV
    rw [hl]
    decide
  constructor <;>
    simp [SSE.write, SSE.writeStep, hl, SSE.flush, hr, Response.write, hfmt]

/-- Witness for C2: a legacy encoder (numbering even enabled) writing a
two-element payload. -/
theorem legacy_write_fixed_frame_witness :
    ((SSE.fresh true true emptyRes).write (Msg.arr ["x", "y"])).fst
      = { SSE.fresh true true emptyRes with
          res := some { emptyRes with writes := emptyRes.writes ++ ["Event: sse\n\n"] } }
    ∧ ((SSE.fresh true true emptyRes).write (Msg.arr ["x", "y"])).snd
      = emptyRes.writeResult "Event: sse\n\n" :=
  legacy_write_fixed_frame (SSE.fresh true true emptyRes) emptyRes (Msg.arr ["x", "y"])
    rfl rfl

/-! ## C1: numbered standard-dialect write traces -/

theorem dataPayload_std (s : SSE) (m : Msg) (h1 : s.legacy = false) :
    s.dataPayload m
      = m.toArray.foldl (fun acc x => acc ++ formatKV false "data" x) "" := by
  unfold SSE.dataPayload SSE.format
  rw [h1]

theorem writeStep_numbered (s : SSE) (m : Msg) (h1 : s.legacy = false)
    (h2 : s.numbering = true) (h3 : s.storage = none) :
    s.writeStep m
      = ({ s with id := s.id + 1 },
         formatKV false "id" (toString s.id)
           ++ m.toArray.foldl (fun acc x => acc ++ formatKV false "data" x) "") := by
  unfold SSE.writeStep
  rw [dataPayload_std s m h1]
  simp [h1, h2, h3, SSE.format]

theorem flush_some (s : SSE) (r : Response) (p : String) (h : s.res = some r) :
    s.flush p
      = ({ s with res := some { r with writes := r.writes ++ [p ++ "\n"] } },
         r.writeResult (p ++ "\n")) := by
  unfold SSE.flush
  rw [h]
  rfl

theorem flush_none (s : SSE) (p : String) (h : s.res = none) :
    s.flush p = (s, false) := by
  unfold SSE.flush
  rw [h]

theorem write_numbered (s : SSE) (r : Response) (m : Msg) (h1 : s.legacy = false)
    (h2 : s.numbering = true) (h3 : s.storage = none) (h4 : s.res = some r) :
    s.write m
      = ({ s with
             id := s.id + 1,
             res := some { r with writes := r.writes ++ [numberedGroup s.id m] } },
         r.writeResult (numberedGroup s.id m)) := by
  unfold SSE.write
  rw [writeStep_numbered s m h1 h2 h3]
  rw [flush_some _ r _ (by simpa using h4)]
  rfl

theorem runWrites_numbered (ms : List Msg) :
    ∀ (s : SSE) (r : Response), s.legacy = false → s.numbering = true →
      s.storage = none → s.res = some r →
      runWrites s ms
        = { s with
              id := s.id + ms.length,
              res := some { r with
                writes := r.writes ++ numberedGroupsFrom s.id ms } } := by
  induction ms with
  | nil =>
      intro s r h1 h2 h3 h4
      simp only [runWrites, numberedGroupsFrom, List.length_nil, Nat.add_zero,
        List.append_nil]
      rw [← h4]
  | cons m tl ih =>
      intro s r h1 h2 h3 h4
      rw [runWrites, write_numbered s r m h1 h2 h3 h4]
      dsimp only
      rw [ih ({ s with
                  id := s.id + 1,
                  res := some { r with writes := r.writes ++ [numberedGroup s.id m] } })
            ({ r with writes := r.writes ++ [numberedGroup s.id m] }) h1 h2 h3 rfl]
      simp [numberedGroupsFrom, List.append_assoc]
      omega

/-- C1: from a fresh encoder with numbering enabled and standard dialect,
the n-th `write` call (zero-based) hands the sink exactly one frame group —
an id frame carrying n, one data frame per supplied payload value in order,
and the blank-line terminator — with ids zero-based, increasing and gapless
for the encoder's lifetime; concretely, `write(["a","b"])` then
`write("c")` produce the wire bytes `id:0\ndata:a\ndata:b\n\n` and
`id:1\ndata:c\n\n`. -/
theorem numbered_write_wire (r : Response) (ms : List Msg) :
    (runWrites (SSE.fresh true false r) ms).id = ms.length
    ∧ (runWrites (SSE.fresh true false r) ms).sinkWrites
        = r.writes ++ numberedGroupsFrom 0 ms
    ∧ (runWrites (SSE.fresh true false emptyRes)
          [Msg.arr ["a", "b"], Msg.str "c"]).sinkWrites
        = ["id:0\ndata:a\ndata:b\n\n", "id:1\ndata:c\n\n"] := by
  have h := runWrites_numbered ms (SSE.fresh true false r) r rfl rfl rfl rfl
  refine ⟨by rw [h]; simp [SSE.fresh], by rw [h]; rfl, by decide⟩

/-! ## C8: the sequence counter and when an id frame is attached -/

/-- An encoder operation: a `write` or a `retry` call. -/
inductive EncOp where
  | write (m : Msg) : EncOp
  | retry (v : String) : EncOp
deriving Repr

/-- Iterated encoder operations. -/
def runOps (s : SSE) : List EncOp → SSE
  | [] => s
  | op :: ops =>
      match op with
      | .write m => runOps (s.write m).fst ops
      | .retry v => runOps (s.retry v).fst ops

theorem flush_id (s : SSE) (p : String) : ((s.flush p).fst).id = s.id := by
  unfold SSE.flush
  split <;> rfl

theorem writeStep_id (s : SSE) (m : Msg) :
    ((s.writeStep m).fst).id
      = if s.numbering = true ∧ s.legacy = false then s.id + 1 else s.id := by
  unfold SSE.writeStep
  cases hl : s.legacy <;> cases hn : s.numbering <;> simp [hl, hn]

theorem writeStep_res (s : SSE) (m : Msg) : ((s.writeStep m).fst).res = s.res := by
  unfold SSE.writeStep
  cases hl : s.legacy <;> cases hn : s.numbering <;> simp [hl, hn]

theorem write_id (s : SSE) (m : Msg) :
    (s.write m).fst.id
      = if s.numbering = true ∧ s.legacy = false then s.id + 1 else s.id := by
  unfold SSE.write
  dsimp only
  rw [flush_id, writeStep_id]

theorem retry_id (s : SSE) (v : String) : (s.retry v).fst.id = s.id := by
  unfold SSE.retry
  rw [flush_id]

theorem runOps_id_mono (ops : List EncOp) : ∀ s : SSE, s.id ≤ (runOps s ops).id := by
  induction ops with
  | nil => intro s; exact Nat.le_refl _
  | cons op tl ih =>
      intro s
      cases op with
      | write m =>
          simp only [runOps]
          refine Nat.le_trans ?_ (ih (s.write m).fst)
          rw [write_id]
          split <;> omega
      | retry v =>
          simp only [runOps]
          refine Nat.le_trans ?_ (ih (s.retry v).fst)
          rw [retry_id]

/-- C8: across any sequence of `write`/`retry` calls the sequence counter
only increases; one `write` advances it by exactly one precisely when
numbering is enabled and the dialect is standard; the packet `write` flushes
carries an id frame exactly in that case (a legacy packet is the fixed
`Event` frame); and `retry` neither advances the counter nor emits anything
but its single `retry` frame. -/
theorem sequence_number_invariant (s : SSE) (m : Msg) (v : String) (ops : List EncOp) :
    s.id ≤ (runOps s ops).id
    ∧ ((s.write m).fst.id = s.id + 1 ↔ (s.numbering = true ∧ s.legacy = false))
    ∧ (s.writeStep m).snd
        = (if s.legacy = true then s.format "Event" "sse"
           else (if s.numbering = true then s.format "id" (toString s.id) else "")
             ++ s.dataPayload m)
    ∧ (s.retry v).fst.id = s.id
    ∧ (s.retry v).snd
        = (match s.res with
           | none => false
           | some r => r.writeResult (s.format "retry" v ++ "\n")) := by
  refine ⟨runOps_id_mono ops s, ?_, ?_, retry_id s v, ?_⟩
  · rw [write_id]
    constructor
    · intro h
      by_cases hc : s.numbering = true ∧ s.legacy = false
      · exact hc
      · rw [if_neg hc] at h
        omega
    · intro hc
      rw [if_pos hc]
  · unfold SSE.writeStep
    cases hl : s.legacy <;> cases hn : s.numbering <;> simp [hl, hn, SSE.format]
  · unfold SSE.retry SSE.flush
    cases h : s.res <;> simp [h, Response.write]

/-! ## C10: the flush step and missing-sink behaviour -/

/-- C10: `_write` appends exactly one blank line to the packet and hands the
sink a single chunk whose result it returns; when no sink is attached,
`write`, `retry` and `_write` return `false` without writing anything. -/
theorem flush_terminator_contract :
    (∀ (s : SSE) (p : String) (m : Msg) (v : String), s.res = none →
        s.flush p = (s, false)
        ∧ s.write m = ((s.writeStep m).fst, false)
        ∧ ((s.writeStep m).fst).res = none
        ∧ s.retry v = (s, false))
    ∧ (∀ (s : SSE) (r : Response) (p : String) (m : Msg) (v : String), s.res = some r →
        s.flush p
          = ({ s with res := some { r with writes := r.writes ++ [p ++ "\n"] } },
             r.writeResult (p ++ "\n"))
        ∧ (s.write m).snd = r.writeResult ((s.writeStep m).snd ++ "\n")
        ∧ (s.retry v).snd = r.writeResult (s.format "retry" v ++ "\n")) := by
  constructor
  · intro s p m v h
    refine ⟨flush_none s p h, ?_, ?_, ?_⟩
    · unfold SSE.write
      dsimp only
      rw [flush_none _ _ (by rw [writeStep_res]; exact h)]
    · rw [writeStep_res]
      exact h
    · unfold SSE.retry
      rw [flush_none s _ h]
  · intro s r p m v h
    refine ⟨flush_some s r p h, ?_, ?_⟩
    · unfold SSE.write
      dsimp only
      rw [flush_some _ r _ (by rw [writeStep_res]; exact h)]
    · unfold SSE.retry
      rw [flush_some s r _ h]

/-- A sink-less encoder, for the C10 witness. -/
def resNoneEnc : SSE :=
  { id := 0, lastEventId := none, encoding := none, res := none,
    numbering := true, legacy := false, storage := none }

/-- Witness for C10: both the missing-sink and the attached-sink halves at
concrete inputs. -/
theorem flush_terminator_contract_witness :
    (resNoneEnc.flush "x" = (resNoneEnc, false)
      ∧ resNoneEnc.write (Msg.str "a") = ((resNoneEnc.writeStep (Msg.str "a")).fst, false)
      ∧ ((resNoneEnc.writeStep (Msg.str "a")).fst).res = none
      ∧ resNoneEnc.retry "5" = (resNoneEnc, false))
    ∧ ((SSE.fresh false false emptyRes).flush "x"
        = ({ SSE.fresh false false emptyRes with
              res := some { emptyRes with writes := emptyRes.writes ++ ["x" ++ "\n"] } },
           emptyRes.writeResult ("x" ++ "\n"))
      ∧ ((SSE.fresh false false emptyRes).write (Msg.str "a")).snd
          = emptyRes.writeResult
              (((SSE.fresh false false emptyRes).writeStep (Msg.str "a")).snd ++ "\n")
      ∧ ((SSE.fresh false false emptyRes).retry "5").snd
          = emptyRes.writeResult ((SSE.fresh false false emptyRes).format "retry" "5" ++ "\n")) :=
  ⟨flush_terminator_contract.1 resNoneEnc "x" (Msg.str "a") "5" rfl,
   flush_terminator_contract.2 (SSE.fresh false false emptyRes) emptyRes "x" (Msg.str "a") "5" rfl⟩

/-! ## C7: the resume state -/

/-- C7, counterexample to "the resume state is unset/absent, not zero":
the second encoder copy initialises `lastEventId` to `0`, so after a
non-manual construction (which runs `accept`) from a request with no
`Last-Event-ID` header, the resume state equals zero rather than being
unset. -/
theorem second_copy_resume_state_zero :
    ((SSE2.construct { headers := [], queryKeys := [] } emptyRes (some []) false false).map
        SSE2.lastEventId) = some (JsNum.int 0) := by decide

/-- C7 as amended: a `Last-Event-ID` of "42" yields a resume state of 42 and
a non-numeric value is stored as NaN (both copies); an absent header leaves
the resume state at its initial value — `null` in the first copy, but `0` in
the second copy. -/
theorem resume_state_parsing (s : SSE) (s2 : SSE2)
    (h1 : s.lastEventId = none) (h2 : s2.lastEventId = JsNum.int 0) :
    (s.accept { headers := [("last-event-id", "42")], queryKeys := [] }).lastEventId
        = some (JsNum.int 42)
    ∧ (s.accept { headers := [], queryKeys := [] }).lastEventId = none
    ∧ (s.accept { headers := [("last-event-id", "abc")], queryKeys := [] }).lastEventId
        = some JsNum.nan
    ∧ (s2.accept { headers := [("last-event-id", "42")], queryKeys := [] }).lastEventId
        = JsNum.int 42
    ∧ (s2.accept { headers := [], queryKeys := [] }).lastEventId = JsNum.int 0
    ∧ (s2.accept { headers := [("last-event-id", "abc")], queryKeys := [] }).lastEventId
        = JsNum.nan :=
  ⟨rfl, h1, rfl, rfl, h2, rfl⟩

/-- A second-copy encoder right after manual construction, for the C7
witness. -/
def freshSSE2 : SSE2 :=
  { id := 0, lastEventId := .int 0, res := some emptyRes,
    numbering := false, legacy := false, storage := none }

/-- Witness for C7's amended statement at concrete encoders. -/
theorem resume_state_parsing_witness :
    ((SSE.fresh false false emptyRes).accept
        { headers := [("last-event-id", "42")], queryKeys := [] }).lastEventId
        = some (JsNum.int 42)
    ∧ ((SSE.fresh false false emptyRes).accept
        { headers := [], queryKeys := [] }).lastEventId = none
    ∧ ((SSE.fresh false false emptyRes).accept
        { headers := [("last-event-id", "abc")], queryKeys := [] }).lastEventId
        = some JsNum.nan
    ∧ (freshSSE2.accept { headers := [("last-event-id", "42")], queryKeys := [] }).lastEventId
        = JsNum.int 42
    ∧ (freshSSE2.accept { headers := [], queryKeys := [] }).lastEventId = JsNum.int 0
    ∧ (freshSSE2.accept { headers := [("last-event-id", "abc")], queryKeys := [] }).lastEventId
        = JsNum.nan :=
  resume_state_parsing (SSE.fresh false false emptyRes) freshSSE2 rfl rfl

/-! ## C9: the response headers set by accept -/

theorem getH_acceptHeaders (lg : Bool) (enc : Option String) (h0 : Headers) :
    getHeader (acceptHeaders lg enc h0) "Content-Type"
        = some (if lg then "text/x-dom-event-stream" else "text/event-stream")
    ∧ getHeader (acceptHeaders lg enc h0) "Transfer-Encoding" = some "chunked"
    ∧ getHeader (acceptHeaders lg enc h0) "Cache-Control" = some "no-cache"
    ∧ getHeader (acceptHeaders lg enc h0) "Connection" = some "keep-alive" := by
  unfold acceptHeaders
  cases enc with
  | none =>
      refine ⟨?_, ?_, ?_, ?_⟩
      · exact getHeader_setHeader_eq _ _ _ _ rfl
      · rw [getHeader_setHeader_ne _ _ _ _ (by decide),
          getHeader_setHeader_ne _ _ _ _ (by decide),
          getHeader_setHeader_ne _ _ _ _ (by decide)]
        exact getHeader_setHeader_eq _ _ _ _ rfl
      · rw [getHeader_setHeader_ne _ _ _ _ (by decide),
          getHeader_setHeader_ne _ _ _ _ (by decide)]
        exact getHeader_setHeader_eq _ _ _ _ rfl
      · rw [getHeader_setHeader_ne _ _ _ _ (by decide)]
        exact getHeader_setHeader_eq _ _ _ _ rfl
  | some e =>
      refine ⟨?_, ?_, ?_, ?_⟩ <;>
        rw [getHeader_varyAdd_ne _ _ _ (by decide),
          getHeader_setHeader_ne _ _ _ _ (by decide)]
      · exact getHeader_setHeader_eq _ _ _ _ rfl
      · rw [getHeader_setHeader_ne _ _ _ _ (by decide),
          getHeader_setHeader_ne _ _ _ _ (by decide),
          getHeader_setHeader_ne _ _ _ _ (by decide)]
        exact getHeader_setHeader_eq _ _ _ _ rfl
      · rw [getHeader_setHeader_ne _ _ _ _ (by decide),
          getHeader_setHeader_ne _ _ _ _ (by decide)]
        exact getHeader_setHeader_eq _ _ _ _ rfl
      · rw [getHeader_setHeader_ne _ _ _ _ (by decide)]
        exact getHeader_setHeader_eq _ _ _ _ rfl

theorem accept_res (s : SSE) (req : Request) (r : Response) (h : s.res = some r) :
    (s.accept req).res = some (acceptUpd s.legacy s.encoding r) := by
  unfold SSE.accept
  dsimp only
  split
  · simp [h]
  · split <;> simp [h]

/-- C9: `accept` sets a success status and the framing headers, with
`Content-Type` equal to `text/x-dom-event-stream` exactly when the dialect
is legacy and `text/event-stream` otherwise, alongside
`Transfer-Encoding: chunked`, `Cache-Control: no-cache` and
`Connection: keep-alive`. -/
theorem accept_sets_headers (s : SSE) (req : Request) (r : Response)
    (h : s.res = some r) :
    (s.accept req).respStatus = some 200
    ∧ (s.accept req).respHeader "Content-Type"
        = some (if s.legacy then "text/x-dom-event-stream" else "text/event-stream")
    ∧ (s.accept req).respHeader "Transfer-Encoding" = some "chunked"
    ∧ (s.accept req).respHeader "Cache-Control" = some "no-cache"
    ∧ (s.accept req).respHeader "Connection" = some "keep-alive" := by
  have hres := accept_res s req r h
  obtain ⟨hct, hte, hcc, hcn⟩ := getH_acceptHeaders s.legacy s.encoding r.headers
  refine ⟨?_, ?_, ?_, ?_, ?_⟩ <;>
    simp [SSE.respStatus, SSE.respHeader, hres, acceptUpd, hct, hte, hcc, hcn]

/-- A legacy-dialect encoder with a negotiated gzip encoding, for the C9
witness. -/
def legacyGzEnc : SSE :=
  { id := 0, lastEventId := none, encoding := some "gzip", res := some emptyRes,
    numbering := false, legacy := true, storage := none }

/-- Witness for C9 on a legacy encoder with compression active. -/
theorem accept_sets_headers_witness :
    (legacyGzEnc.accept { headers := [], queryKeys := [] }).respStatus = some 200
    ∧ (legacyGzEnc.accept { headers := [], queryKeys := [] }).respHeader "Content-Type"
        = some (if legacyGzEnc.legacy then "text/x-dom-event-stream" else "text/event-stream")
    ∧ (legacyGzEnc.accept { headers := [], queryKeys := [] }).respHeader "Transfer-Encoding"
        = some "chunked"
    ∧ (legacyGzEnc.accept { headers := [], queryKeys := [] }).respHeader "Cache-Control"
        = some "no-cache"
    ∧ (legacyGzEnc.accept { headers := [], queryKeys := [] }).respHeader "Connection"
        = some "keep-alive" :=
  accept_sets_headers legacyGzEnc { headers := [], queryKeys := [] } emptyRes rfl

/-! ## C4: which headers feed the dialect detection -/

/-- C4 (code bug): the constructor feeds `legacy()` the RESPONSE's
`headers` field rather than the request's.  With a request advertising an
early-Opera-9 user agent and no query marker: the `legacy` predicate on the
request's own headers is true; construction against a plain Node response
(no `headers` field) throws a TypeError; construction against a response
that happens to carry an (empty) headers object yields the standard
dialect.  The query-marker arm still works because `'_SSE_LEGACY' in query`
short-circuits before the headers are touched. -/
theorem dialect_ignores_request_user_agent :
    legacyFn [] [("user-agent", "Opera/9.64 (X11; Linux i686; U; en)")] = true
    ∧ (SSE.construct
        { headers := [("user-agent", "Opera/9.64 (X11; Linux i686; U; en)")],
          queryKeys := [] }
        emptyRes none false false none).isSome = false
    ∧ ((SSE.construct
        { headers := [("user-agent", "Opera/9.64 (X11; Linux i686; U; en)")],
          queryKeys := [] }
        emptyRes (some []) false false none).map SSE.legacy) = some false
    ∧ ((SSE.construct { headers := [], queryKeys := ["_SSE_LEGACY"] }
        emptyRes none false false none).map SSE.legacy) = some true := by
  refine ⟨by decide, by decide, by decide, by decide⟩

/-! ## C5 and C6: the transport's open/end lifecycle -/

/-- The handle the first (standard-strategy) open produces: note `src` is
`none` — the EventSource was constructed from the still-null `this.url`. -/
def openedOnceHandle : Handle :=
  { kind := .eventSource, src := none, elemId := none, withCredentials := true,
    listeners := [("message", "data"), ("error", "error"), ("close", "close"),
      ("open", "open")],
    closed := false, srcAttributeRemoved := false, removedEventSource := none }

/-- The transport state after one non-manual standard-strategy
construction. -/
def openedOnce : TransportState :=
  { noreconnect := false, url := some "http://example.com/sse",
    api := some openedOnceHandle, divMounted := false, uniqueCounter := 1,
    legacyMode := false }

/-- C5 (code bug): after one open the four shared bindings are attached,
but a second `open` first runs `end`, which closes the old handle and then
calls `removeListener` — a method neither §6 connection primitive exposes —
so the call throws with every old binding still attached and no new
connection made; moreover `end` never targets the `close` binding at all. -/
theorem second_open_throws_stale_listeners :
    TransportState.construct false 1 "http://example.com/sse" none false
      = JsOutcome.ok openedOnce
    ∧ openedOnce.api = some openedOnceHandle
    ∧ openedOnceHandle.listeners
        = [("message", "data"), ("error", "error"), ("close", "close"), ("open", "open")]
    ∧ TransportState.openFn openedOnce (some "http://example.com/alt")
        = JsOutcome.err
            { openedOnce with api := some { openedOnceHandle with closed := true } }
            "TypeError: this.api.removeListener is not a function" := by
  refine ⟨by decide, by decide, by decide, by decide⟩

/-- C6 (code bug): opening a standard-strategy transport on a URL creates
the EventSource against the PREVIOUS `this.url` — still null on the first
open — not the supplied URL (though credentials are enabled); and the
legacy strategy REPLACES the URL with just the separator plus the
`_SSE_LEGACY` marker, discarding the rest of the caller's URL from the
mounted element's `src` and from `this.url`. -/
theorem open_connects_to_wrong_url :
    ((TransportState.construct false 1 "http://example.com/sse" none false).state.api.map
        Handle.src) = some none
    ∧ (TransportState.construct false 1 "http://example.com/sse" none false).state.url
        = some "http://example.com/sse"
    ∧ ((TransportState.construct false 1 "http://example.com/sse" none false).state.api.map
        Handle.withCredentials) = some true
    ∧ ((TransportState.construct true 1 "http://example.com/sse?x=1" none false).state.api.map
        Handle.src) = some (some "&_SSE_LEGACY=1")
    ∧ (TransportState.construct true 1 "http://example.com/sse?x=1" none false).state.url
        = some "&_SSE_LEGACY=1" := by
  refine ⟨by decide, by decide, by decide, by decide, by decide⟩

end SSEVerify
